import Mathlib

/-!
Shallow embedding of `unusedlambda.py`: a script that builds three Athena
statements (create table, add partition, compute last-run activity), runs
them in order against the Athena query service, parses the final result
set, and prints the inventory minus the active set.

Pure string construction (`build_query_strings`, the templates, the Python
`str(list)` / slice / `lstrip` helpers) is translated directly.  The
network-facing parts (`run_query`, the loop in `main`) are embedded as
functions over a scripted service: a status schedule per submitted
statement and a result set per statement, with a fuel bound standing for
the unbounded `while` loop (`none` = the loop is still running when the
fuel runs out).
-/

/-- The five Athena query-execution states reported by
`get_query_execution` (the source compares the state string against the
literals `'SUCCEEDED'` and `'FAILED'`). -/
inductive QState
  | submitted
  | running
  | succeeded
  | failed
  | cancelled
deriving DecidableEq

/-- One entry of a result row's `Data` list.  boto3 represents a null /
missing cell as a dict without the `VarCharValue` key, hence `Option`. -/
structure AthenaCell where
  VarCharValue : Option String
deriving DecidableEq

/-- One row of `response['ResultSet']['Rows']`. -/
structure AthenaRow where
  Data : List AthenaCell
deriving DecidableEq

/-- The Python lookup exceptions the result parser can raise:
`row['Data'][0]` out of range, or `cell['VarCharValue']` key absent. -/
inductive PyLookupError
  | keyError
  | indexError
deriving DecidableEq

instance {ε α : Type} [DecidableEq ε] [DecidableEq α] : DecidableEq (Except ε α) := fun a b =>
  match a, b with
  | .error x, .error y =>
    if h : x = y then .isTrue (by rw [h]) else .isFalse (by simp [h])
  | .error _, .ok _ => .isFalse (by simp)
  | .ok _, .error _ => .isFalse (by simp)
  | .ok x, .ok y =>
    if h : x = y then .isTrue (by rw [h]) else .isFalse (by simp [h])

/-- Module constant `TABLE_NAME` (source line 24). -/
def TABLE_NAME : String := "cloudtrail_logs"

/-- Module constant `CLOUDTRAIL_S3_BUCKET_NAME` (source line 29). -/
def CLOUDTRAIL_S3_BUCKET_NAME : String := "s3://cloudtrail-logs-bucket/AWSLogs/123456789012/"

/-- Module constant `ATHENA_S3_BUCKET_NAME` (source line 20). -/
def ATHENA_S3_BUCKET_NAME : String := "s3://athena-history-bucket-demo"

/-- `CREATE_TABLE_QUERY_TEMPLATE` up to the `{0}` hole. -/
def createTablePre : String := "CREATE EXTERNAL TABLE "

/-- `CREATE_TABLE_QUERY_TEMPLATE` between the `{0}` and `{1}` holes. -/
def createTableMid : String := " (
eventversion STRING,
userIdentity STRUCT<
  type:STRING,
  principalid:STRING,
  arn:STRING,
  accountid:STRING,
  invokedby:STRING,
  accesskeyid:STRING,
  userName:STRING,
  sessioncontext:STRUCT<
    attributes:STRUCT<
      mfaauthenticated:STRING,
      creationdate:STRING>,
    sessionIssuer:STRUCT<
      type:STRING,
      principalId:STRING,
      arn:STRING,
      accountId:STRING,
      userName:STRING>>>,
eventTime STRING,
eventSource STRING,
eventName STRING,
awsRegion STRING,
sourceIpAddress STRING,
userAgent STRING,
errorCode STRING,
errorMessage STRING,
requestParameters STRING,
responseElements STRING,
additionalEventData STRING,
requestId STRING,
eventId STRING,
resources ARRAY<STRUCT<
  ARN:STRING,accountId:
  STRING,type:STRING>>,
eventType STRING,
apiVersion STRING,
readOnly STRING,
recipientAccountId STRING,
serviceEventDetails STRING,
sharedEventID STRING,
vpcEndpointId STRING
)
PARTITIONED BY(year string)
ROW FORMAT SERDE 'com.amazon.emr.hive.serde.CloudTrailSerde'
STORED AS INPUTFORMAT 'com.amazon.emr.cloudtrail.CloudTrailInputFormat'
OUTPUTFORMAT 'org.apache.hadoop.hive.ql.io.HiveIgnoreKeyTextOutputFormat'
LOCATION '"

/-- `CREATE_TABLE_QUERY_TEMPLATE` after the `{1}` hole. -/
def createTablePost : String := "';"

/-- `CREATE_TABLE_QUERY_TEMPLATE.format(tableName, loc)` (source lines
31-80): the `.format` substitution is modelled by concatenation at the
two holes. -/
def CREATE_TABLE_QUERY_TEMPLATE (tableName loc : String) : String :=
  createTablePre ++ tableName ++ createTableMid ++ loc ++ createTablePost

/-- `CREATE_PARTITON_QUERY_TEMPLATE` up to the `{0}` hole (note the table
name is the hard-coded literal `cloudtrail_logs`, not the `TABLE_NAME`
constant). -/
def partitionQueryPre : String := "\nALTER TABLE cloudtrail_logs add partition (year=\"2018\")\nlocation '"

/-- `CREATE_PARTITON_QUERY_TEMPLATE` after the `{0}` hole. -/
def partitionQueryPost : String := "/CloudTrail/us-east-1/2018/'"

/-- `CREATE_PARTITON_QUERY_TEMPLATE.format(loc)` (source lines 83-85). -/
def CREATE_PARTITON_QUERY_TEMPLATE (loc : String) : String :=
  partitionQueryPre ++ loc ++ partitionQueryPost

/-- `LAST_RUN_QUERY_TEMPLATE` up to the `{function_arns}` hole (again the
table name is the hard-coded literal `cloudtrail_logs`). -/
def lastRunPre : String := "\nselect json_extract_scalar(requestparameters, '$.functionName') as function_name, Max (eventtime) as \"Last Run\"\nfrom cloudtrail_logs\nwhere eventname='Invoke'\nand year='2018'\nand from_iso8601_timestamp(eventtime) > current_timestamp - interval '1' month\nand json_extract_scalar(requestparameters, '$.functionName') in ("

/-- `LAST_RUN_QUERY_TEMPLATE` after the `{function_arns}` hole. -/
def lastRunPost : String := ")\ngroup by json_extract_scalar(requestparameters, '$.functionName')"

/-- `LAST_RUN_QUERY_TEMPLATE.format(function_arns = csv)` (source lines
88-95). -/
def LAST_RUN_QUERY_TEMPLATE (function_arns_value : String) : String :=
  lastRunPre ++ function_arns_value ++ lastRunPost

/-- Python `c in s` membership test on the characters of a string. -/
def pyCharIn (c : Char) (s : String) : Bool := s.data.contains c

/-- The delimiter CPython `repr` picks for a string: a single quote,
unless the string contains a single quote and no double quote, in which
case a double quote.  (`Char.ofNat 39` is the single-quote character,
`Char.ofNat 34` the double quote.) -/
def pyReprQuoteChar (s : String) : Char :=
  if pyCharIn (Char.ofNat 39) s && !(pyCharIn (Char.ofNat 34) s) then Char.ofNat 34
  else Char.ofNat 39

/-- How CPython `repr` renders one character inside the chosen delimiter:
backslash and the delimiter itself are backslash-escaped, tab / newline /
carriage return become two-character escapes, every other character is
copied as is.  (Characters that Python renders with numeric escapes —
other control characters and, under some conditions, non-ASCII — do not
occur in the inputs considered here.) -/
def pyEscChar (quote c : Char) : List Char :=
  if c = Char.ofNat 92 then [Char.ofNat 92, Char.ofNat 92]
  else if c = quote then [Char.ofNat 92, c]
  else if c = Char.ofNat 9 then [Char.ofNat 92, Char.ofNat 116]
  else if c = Char.ofNat 10 then [Char.ofNat 92, Char.ofNat 110]
  else if c = Char.ofNat 13 then [Char.ofNat 92, Char.ofNat 114]
  else [c]

/-- CPython `repr` of a string: the chosen delimiter, the escaped
characters, the delimiter again. -/
def pyReprStr (s : String) : String :=
  ⟨pyReprQuoteChar s :: s.data.flatMap (pyEscChar (pyReprQuoteChar s)) ++ [pyReprQuoteChar s]⟩

/-- Python `sep.join(l)`. -/
def pyJoin (sep : String) : List String → String
  | [] => ""
  | [s] => s
  | s :: rest => s ++ sep ++ pyJoin sep rest

/-- Python `str(l)` for a list of strings: the `repr` of each element,
joined by comma-space, inside square brackets. -/
def pyStrListOfStr (l : List String) : String :=
  "[" ++ pyJoin ", " (l.map pyReprStr) ++ "]"

/-- Python `s[1:-1]`: drop the first and the last character. -/
def pySlice1Neg1 (s : String) : String := ⟨(s.data.drop 1).dropLast⟩

/-- `function_arns_csv = str(function_arns)[1:-1]` (source line 150). -/
def function_arns_csv (function_arns : List String) : String :=
  pySlice1Neg1 (pyStrListOfStr function_arns)

/-- `build_query_strings` (source lines 149-154), with the two module
constants it reads (`TABLE_NAME`, `CLOUDTRAIL_S3_BUCKET_NAME`) made
explicit parameters so that statements about changing the configuration
can be expressed. -/
def build_query_strings (tableName cloudtrailLoc : String) (function_arns : List String) :
    String × String × String :=
  (CREATE_TABLE_QUERY_TEMPLATE tableName cloudtrailLoc,
   CREATE_PARTITON_QUERY_TEMPLATE cloudtrailLoc,
   LAST_RUN_QUERY_TEMPLATE (function_arns_csv function_arns))

/-- Python `s.lstrip(chars)`: remove every leading character that occurs
in `chars`. -/
def pyLstrip (stripChars : List Char) (s : String) : String :=
  ⟨s.data.dropWhile (fun c => stripChars.contains c)⟩

/-- The execution id `run_query` passes to `get_query_execution` (source
line 132): `response['QueryExecutionId'].lstrip('ID')`. -/
def statusPollExecutionId (executionId : String) : String :=
  pyLstrip ['I', 'D'] executionId

/-- The execution id `run_query` passes to `get_query_results` (source
line 144): the submission response's id, unmodified. -/
def resultsFetchExecutionId (executionId : String) : String := executionId

/-- The single `get_query_results` call of `run_query` (source lines
143-145) against a service whose full result is paginated into `pages`:
one call returns the first page only (the `NextToken` of the response is
never read, so no further page is fetched). -/
def get_query_results_rows (pages : List (List AthenaRow)) : List AthenaRow :=
  pages.headD []

/-- The full result the service holds: every page, in order. -/
def drainAllPages (pages : List (List AthenaRow)) : List AthenaRow :=
  pages.flatten

/-- The polling loop of `run_query` (source lines 129-146) against a
scripted service: `status n` is the state `get_query_execution` reports
at the n-th poll, `rows` the result rows `get_query_results` would
return.  The loop runs while the last fetched state is not `SUCCEEDED`;
inside, a `FAILED` state returns Python `None` (modelled `some none`);
on exit the results are fetched (`some (some rows)`).  Any other state —
including the terminal `CANCELLED` — keeps polling, so the function
recurses; `fuel` bounds the number of polls we unfold and `none` means
the loop was still running when the bound was reached. -/
def runQueryModel (status : Nat → QState) (rows : List AthenaRow) :
    Nat → Nat → Option (Option (List AthenaRow))
  | _, 0 => none
  | i, fuel + 1 =>
    if status i = QState.failed then some none
    else if status i = QState.succeeded then some (some rows)
    else runQueryModel status rows (i + 1) fuel

/-- The single fold step of `get_set_of_function_arns_from_result_set`:
`row['Data'][0]['VarCharValue']` is read and added to the set; an empty
`Data` list raises `IndexError`, a cell without the key raises
`KeyError`. -/
def addRowArn (acc : Finset String) (row : AthenaRow) :
    Except PyLookupError (Finset String) :=
  match row.Data with
  | [] => .error .indexError
  | cell :: _ =>
    match cell.VarCharValue with
    | none => .error .keyError
    | some v => .ok (insert v acc)

/-- `get_set_of_function_arns_from_result_set` (source lines 157-162):
skip the first row (`result_set[1:]`), then fold the remaining rows into
a set, stopping at the first raised exception. -/
def get_set_of_function_arns_from_result_set (result_set : List AthenaRow) :
    Except PyLookupError (Finset String) :=
  (result_set.drop 1).foldlM addRowArn ∅

/-- The reconciliation expression of `main` (source line 179):
`set(function_arns) - set_of_functions_used`. -/
def reconcile (function_arns : List String) (set_of_functions_used : Finset String) :
    Finset String :=
  function_arns.toFinset \ set_of_functions_used

/-- The `for q in queries` loop of `main` (source lines 169-170) over the
statement indices it has yet to run: each iteration submits the
statement (its index is recorded in the first component) and runs
`runQueryModel` on that statement's status schedule.  If a statement's
polling never ends, nothing further is submitted and the second
component is `none`; otherwise the per-statement outcomes are collected
in order. -/
def mainQueriesLoop (statuses : Nat → Nat → QState) (resultsFor : Nat → List AthenaRow)
    (fuel : Nat) : List Nat → List Nat × Option (List (Option (List AthenaRow)))
  | [] => ([], some [])
  | i :: rest =>
    match runQueryModel (statuses i) (resultsFor i) 0 fuel with
    | none => ([i], none)
    | some r =>
      let p := mainQueriesLoop statuses resultsFor fuel rest
      (i :: p.1, p.2.map (fun l => r :: l))

/-- How a run of `main` ends: printing the stale set, crashing with a
`TypeError` (subscripting the `None` a failed query returned, source
line 173), crashing with the parser's lookup error, or never returning
from a polling loop. -/
inductive MainOutcome
  | staleSet (s : Finset String)
  | pyTypeError
  | parseError (e : PyLookupError)
  | diverged
deriving DecidableEq

/-- `main` (source lines 165-182) against a scripted service: the three
statements of `build_query_strings` are run in order 0 (create table),
1 (add partition), 2 (compute activity); `statuses i` is statement i's
status schedule and `resultsFor i` its result rows.  Returns the list of
statement indices actually submitted together with the outcome:
`query_results[-1]` is parsed and reconciled against the inventory, a
`None` in the last slot crashes subscripting (`pyTypeError`), a parser
exception propagates, and an unfinished polling loop never returns. -/
def mainModel (function_arns : List String) (statuses : Nat → Nat → QState)
    (resultsFor : Nat → List AthenaRow) (fuel : Nat) : List Nat × MainOutcome :=
  let p := mainQueriesLoop statuses resultsFor fuel [0, 1, 2]
  match p.2 with
  | none => (p.1, .diverged)
  | some results =>
    match results.getLast? with
    | none => (p.1, .pyTypeError)
    | some none => (p.1, .pyTypeError)
    | some (some rows) =>
      match get_set_of_function_arns_from_result_set rows with
      | .error e => (p.1, .parseError e)
      | .ok active => (p.1, .staleSet (reconcile function_arns active))

/-- The rendering the claim about the identifier list asserts: each
identifier wrapped in single-quote characters, joined by comma-space,
with no escaping applied.  (Stated from the claim's words, to be
compared with `function_arns_csv`, which follows the source.) -/
def c10claimedCsv (l : List String) : String :=
  pyJoin ", " (l.map (fun s =>
    String.singleton (Char.ofNat 39) ++ s ++ String.singleton (Char.ofNat 39)))

/-- A character that CPython `repr` copies verbatim and that never
influences the delimiter choice: not a quote of either kind, not a
backslash, not tab / newline / carriage return. -/
def pyPlainChar (c : Char) : Bool :=
  !(c = Char.ofNat 39 || c = Char.ofNat 34 || c = Char.ofNat 92 ||
    c = Char.ofNat 9 || c = Char.ofNat 10 || c = Char.ofNat 13)

/-! Helper lemmas about strings and lists, shared by the claim theorems. -/

theorem strDataAppend (a b : String) : (a ++ b).data = a.data ++ b.data := by
  cases a; cases b; rfl

theorem strEqOfData (a b : String) (h : a.data = b.data) : a = b := by
  cases a; cases b; exact congrArg String.mk h

theorem infixAppendLeft (t a b : List Char) (h : t <:+: a) : t <:+: a ++ b :=
  h.trans (List.prefix_append a b).isInfix

theorem flatMapIdOfMem (l : List Char) (f : Char → List Char)
    (h : ∀ c ∈ l, f c = [c]) : l.flatMap f = l := by
  induction l with
  | nil => rfl
  | cons a l ih =>
    rw [List.flatMap_cons, h a (List.mem_cons_self a l),
      ih (fun c hc => h c (List.mem_cons_of_mem a hc))]
    rfl

theorem pyPlainCharSpec (c : Char) (h : pyPlainChar c = true) :
    c ≠ Char.ofNat 39 ∧ c ≠ Char.ofNat 34 ∧ c ≠ Char.ofNat 92 ∧
    c ≠ Char.ofNat 9 ∧ c ≠ Char.ofNat 10 ∧ c ≠ Char.ofNat 13 := by
  simp only [pyPlainChar, Bool.not_eq_true', Bool.or_eq_false_iff,
    decide_eq_false_iff_not] at h
  exact ⟨h.1.1.1.1.1, h.1.1.1.1.2, h.1.1.1.2, h.1.1.2, h.1.2, h.2⟩

theorem pyEscCharPlain (q c : Char) (hq : c ≠ q) (h : pyPlainChar c = true) :
    pyEscChar q c = [c] := by
  obtain ⟨_, _, h92, h9, h10, h13⟩ := pyPlainCharSpec c h
  simp [pyEscChar, h92, hq, h9, h10, h13]

theorem pyCharInFalse (c : Char) (s : String) (h : c ∉ s.data) :
    pyCharIn c s = false := by
  simp [pyCharIn, List.contains]
  exact h

theorem pyReprStrPlain (t : String) (h : ∀ c ∈ t.data, pyPlainChar c = true) :
    pyReprStr t = String.singleton (Char.ofNat 39) ++ t ++ String.singleton (Char.ofNat 39) := by
  have hsq : pyCharIn (Char.ofNat 39) t = false := by
    apply pyCharInFalse
    intro hmem
    exact absurd (h _ hmem) (by decide)
  have hq : pyReprQuoteChar t = Char.ofNat 39 := by
    simp [pyReprQuoteChar, hsq]
  have hflat : t.data.flatMap (pyEscChar (Char.ofNat 39)) = t.data :=
    flatMapIdOfMem _ _ (fun c hc =>
      pyEscCharPlain _ c (pyPlainCharSpec c (h c hc)).1 (h c hc))
  apply strEqOfData
  simp only [pyReprStr, hq, hflat, strDataAppend, String.singleton]
  simp

theorem pyReprStrSingleQuoted (s : String) (hsq : Char.ofNat 39 ∈ s.data)
    (hmix : ∀ c ∈ s.data, pyPlainChar c = true ∨ c = Char.ofNat 39) :
    pyReprStr s = String.singleton (Char.ofNat 34) ++ s ++ String.singleton (Char.ofNat 34) := by
  have h39 : pyCharIn (Char.ofNat 39) s = true := by
    simp [pyCharIn, List.contains]
    exact hsq
  have h34 : pyCharIn (Char.ofNat 34) s = false := by
    apply pyCharInFalse
    intro hmem
    rcases hmix _ hmem with hpl | heq
    · exact absurd hpl (by decide)
    · exact absurd heq (by decide)
  have hq : pyReprQuoteChar s = Char.ofNat 34 := by
    simp [pyReprQuoteChar, h39, h34]
  have hflat : s.data.flatMap (pyEscChar (Char.ofNat 34)) = s.data := by
    apply flatMapIdOfMem
    intro c hc
    rcases hmix _ hc with hpl | heq
    · exact pyEscCharPlain _ c (pyPlainCharSpec c hpl).2.1 hpl
    · rw [heq]; decide
  apply strEqOfData
  simp only [pyReprStr, hq, hflat, strDataAppend, String.singleton]
  simp

theorem pySlice1Neg1Brackets (s : String) : pySlice1Neg1 ("[" ++ s ++ "]") = s := by
  apply strEqOfData
  simp only [pySlice1Neg1, strDataAppend]
  show ((("[").data ++ s.data ++ ("]").data).drop 1).dropLast = s.data
  simp [List.dropLast_concat]

theorem functionArnsCsvQuoted (l : List String)
    (h : ∀ t ∈ l, ∀ c ∈ t.data, pyPlainChar c = true) :
    function_arns_csv l = c10claimedCsv l := by
  have hmap : l.map pyReprStr
      = l.map (fun s => String.singleton (Char.ofNat 39) ++ s ++ String.singleton (Char.ofNat 39)) :=
    List.map_congr_left (fun t ht => pyReprStrPlain t (h t ht))
  unfold function_arns_csv pyStrListOfStr c10claimedCsv
  rw [hmap]
  exact pySlice1Neg1Brackets _

/-! The claims. -/

/-- C1: the claim says that after `create_table` reaches terminal FAILED
the other two statements are never submitted and the run ends with a
QueryFailed error and no StaleSet.  The code disagrees: with a scripted
service whose first execution reports FAILED at once and whose later two
succeed, all three statement indices are submitted (`[0, 1, 2]`) and the
run still ends by printing a StaleSet computed from the last result. -/
theorem c1_failed_create_table_still_submits_and_reconciles :
    mainModel ["fn-a", "fn-b"]
      (fun i _ => if i = 0 then QState.failed else QState.succeeded)
      (fun _ => [AthenaRow.mk [AthenaCell.mk (some "function_name")],
                 AthenaRow.mk [AthenaCell.mk (some "fn-a")]]) 3
      = ([0, 1, 2], MainOutcome.staleSet {"fn-b"}) := by decide

/-- C2: the reconciliation step is exactly the set difference inventory
minus active, invariant to ordering of and duplicates in either input,
empty on an empty inventory, and empty whenever the active set covers
the inventory. -/
theorem c2_reconcile_is_set_difference (inventory : List String) (active : Finset String) :
    (∀ x, x ∈ reconcile inventory active ↔ x ∈ inventory ∧ x ∉ active)
    ∧ (∀ inventory' : List String, inventory.toFinset = inventory'.toFinset →
        reconcile inventory active = reconcile inventory' active)
    ∧ (∀ l₁ l₂ : List String, l₁.toFinset = l₂.toFinset →
        reconcile inventory l₁.toFinset = reconcile inventory l₂.toFinset)
    ∧ reconcile [] active = ∅
    ∧ ((∀ x ∈ inventory, x ∈ active) → reconcile inventory active = ∅) := by
  refine ⟨?_, ?_, ?_, ?_, ?_⟩
  · intro x
    simp [reconcile]
  · intro inv' h
    simp [reconcile, h]
  · intro l₁ l₂ h
    simp [reconcile, h]
  · simp [reconcile]
  · intro h
    simp only [reconcile, Finset.sdiff_eq_empty_iff_subset]
    intro x hx
    exact h x (List.mem_toFinset.mp hx)

/-- C2 witness: the theorem applied at concrete inputs (a permuted,
duplicated inventory, and an active set covering the inventory). -/
theorem c2_reconcile_witness :
    reconcile ["fn-b", "fn-a", "fn-a"] {"fn-a"} = reconcile ["fn-a", "fn-b"] {"fn-a"}
    ∧ reconcile ["fn-a", "fn-b"] {"fn-a", "fn-b", "fn-c"} = ∅ :=
  ⟨(c2_reconcile_is_set_difference ["fn-b", "fn-a", "fn-a"] {"fn-a"}).2.1
      ["fn-a", "fn-b"] (by decide),
   (c2_reconcile_is_set_difference ["fn-a", "fn-b"] {"fn-a", "fn-b", "fn-c"}).2.2.2.2
      (by decide)⟩

/-- C3: the claim says the polling loop terminates for every execution
whose state becomes terminal, failing with QueryCancelled on CANCELLED.
The code's loop only exits on SUCCEEDED or FAILED, so on an execution
that is terminally CANCELLED from the first poll on it polls forever:
no poll bound makes the model return. -/
theorem c3_cancelled_execution_polls_forever (rows : List AthenaRow) (i fuel : Nat) :
    runQueryModel (fun _ => QState.cancelled) rows i fuel = none := by
  induction fuel generalizing i with
  | zero => rfl
  | succ n ih =>
    simp only [runQueryModel]
    rw [if_neg (by decide), if_neg (by decide)]
    exact ih (i + 1)

/-- C3 witness: the theorem applied at a concrete poll bound. -/
theorem c3_cancelled_witness :
    runQueryModel (fun _ => QState.cancelled) [] 0 5 = none :=
  c3_cancelled_execution_polls_forever [] 0 5

/-- C4: the claim says a paginated result is fully drained.  The code
issues a single `get_query_results` call and never reads the response's
`NextToken`, so of a two-page result only the first page is returned —
a silent truncation. -/
theorem c4_get_query_results_returns_first_page_only :
    get_query_results_rows [[AthenaRow.mk [AthenaCell.mk (some "fn-a")]],
        [AthenaRow.mk [AthenaCell.mk (some "fn-b")]]]
      = [AthenaRow.mk [AthenaCell.mk (some "fn-a")]]
    ∧ get_query_results_rows [[AthenaRow.mk [AthenaCell.mk (some "fn-a")]],
        [AthenaRow.mk [AthenaCell.mk (some "fn-b")]]]
      ≠ drainAllPages [[AthenaRow.mk [AthenaCell.mk (some "fn-a")]],
        [AthenaRow.mk [AthenaCell.mk (some "fn-b")]]] := by decide

/-- C5: the claim says the submission-time execution id is used verbatim
in every later call.  The status-polling call strips all leading `I` and
`D` characters from it (`lstrip('ID')`), so an id beginning with those
characters is polled under a different id; only the result-fetching call
uses it verbatim. -/
theorem c5_status_poll_strips_leading_id_characters :
    statusPollExecutionId "ID2b3c4d" = "2b3c4d"
    ∧ statusPollExecutionId "ID2b3c4d" ≠ "ID2b3c4d"
    ∧ resultsFetchExecutionId "ID2b3c4d" = "ID2b3c4d" := by decide

/-- C6: the claim says a row with a missing or null target cell is
skipped and the remaining rows still contribute.  The code raises
(KeyError for a cell without `VarCharValue`, IndexError for an empty
`Data` list) and parsing of all remaining rows is aborted; without the
defective row the same rows parse to the expected set. -/
theorem c6_null_cell_aborts_result_parsing :
    get_set_of_function_arns_from_result_set
      [AthenaRow.mk [AthenaCell.mk (some "function_name")],
       AthenaRow.mk [AthenaCell.mk (some "fn-a")],
       AthenaRow.mk [AthenaCell.mk none],
       AthenaRow.mk [AthenaCell.mk (some "fn-b")]]
      = Except.error PyLookupError.keyError
    ∧ get_set_of_function_arns_from_result_set
      [AthenaRow.mk [AthenaCell.mk (some "function_name")],
       AthenaRow.mk [AthenaCell.mk (some "fn-a")],
       AthenaRow.mk [],
       AthenaRow.mk [AthenaCell.mk (some "fn-b")]]
      = Except.error PyLookupError.indexError
    ∧ get_set_of_function_arns_from_result_set
      [AthenaRow.mk [AthenaCell.mk (some "function_name")],
       AthenaRow.mk [AthenaCell.mk (some "fn-a")],
       AthenaRow.mk [AthenaCell.mk (some "fn-b")]]
      = Except.ok ({"fn-a", "fn-b"} : Finset String) := by decide

set_option maxRecDepth 20000 in
/-- C7: the claim says an empty resource id list still renders a
syntactically valid `compute_activity` statement.  The code renders the
identifier csv as the empty string, so the statement's filter becomes
the empty IN list `in ()` — malformed in Athena's Presto dialect. -/
theorem c7_empty_inventory_renders_empty_in_list :
    function_arns_csv [] = ""
    ∧ (build_query_strings TABLE_NAME CLOUDTRAIL_S3_BUCKET_NAME []).2.2
      = LAST_RUN_QUERY_TEMPLATE ""
    ∧ ("in ()").data <:+: ((build_query_strings TABLE_NAME CLOUDTRAIL_S3_BUCKET_NAME []).2.2).data := by
  refine ⟨by decide, rfl, ?_⟩
  decide

/-- C8: the claim says a ResultSet missing the expected header row is
surfaced as a MalformedResult error.  The code's `result_set[1:]` slice
turns a headerless (empty) result set into a silently accepted empty
active set, and the run then reports the whole inventory stale instead
of erroring. -/
theorem c8_missing_header_silently_recovered_as_empty_active_set :
    get_set_of_function_arns_from_result_set [] = Except.ok (∅ : Finset String)
    ∧ (mainModel ["fn-a", "fn-b"] (fun _ _ => QState.succeeded) (fun _ => []) 3).2
      = MainOutcome.staleSet {"fn-a", "fn-b"} := by decide

set_option maxRecDepth 20000 in
/-- C9: only the `create_table` statement depends on the configured
table name: the `add_partition` and `compute_activity` statements are
unchanged under any change of the table-name configuration, both embed
the hard-coded literal `cloudtrail_logs`, and distinct table names do
produce distinct `create_table` statements. -/
theorem c9_partition_and_activity_ignore_table_name (tn tn' loc : String) (arns : List String) :
    (build_query_strings tn loc arns).2.1 = (build_query_strings tn' loc arns).2.1
    ∧ (build_query_strings tn loc arns).2.2 = (build_query_strings tn' loc arns).2.2
    ∧ ("cloudtrail_logs").data <:+: ((build_query_strings tn loc arns).2.1).data
    ∧ ("cloudtrail_logs").data <:+: ((build_query_strings tn loc arns).2.2).data
    ∧ (tn ≠ tn' → (build_query_strings tn loc arns).1 ≠ (build_query_strings tn' loc arns).1) := by
  refine ⟨rfl, rfl, ?_, ?_, ?_⟩
  · show ("cloudtrail_logs").data <:+: (partitionQueryPre ++ loc ++ partitionQueryPost).data
    rw [strDataAppend, strDataAppend]
    exact infixAppendLeft _ _ _ (infixAppendLeft _ _ _ (by decide))
  · show ("cloudtrail_logs").data
      <:+: (lastRunPre ++ function_arns_csv arns ++ lastRunPost).data
    rw [strDataAppend, strDataAppend]
    exact infixAppendLeft _ _ _ (infixAppendLeft _ _ _ (by decide))
  · intro hne heq
    apply hne
    have hd := congrArg String.data heq
    simp only [build_query_strings, CREATE_TABLE_QUERY_TEMPLATE, strDataAppend] at hd
    have h1 := List.append_cancel_right hd
    have h2 := List.append_cancel_right h1
    have h3 := List.append_cancel_right h2
    exact strEqOfData _ _ (List.append_cancel_left h3)

/-- C9 witness: the theorem applied at two concrete, distinct table
names. -/
theorem c9_table_name_witness :
    (build_query_strings "cloudtrail_logs" CLOUDTRAIL_S3_BUCKET_NAME ["fn-a"]).1
      ≠ (build_query_strings "other_logs" CLOUDTRAIL_S3_BUCKET_NAME ["fn-a"]).1 :=
  (c9_partition_and_activity_ignore_table_name "cloudtrail_logs" "other_logs"
      CLOUDTRAIL_S3_BUCKET_NAME ["fn-a"]).2.2.2.2 (by decide)

/-- C10 counterexample: for the identifier `a'b` (a single quote inside),
Python's list `str` does not wrap the identifier in single-quote
characters as the claim states — it switches to double-quote delimiters,
so the csv is `"a'b"`, not `'a'b'`. -/
theorem c10_single_quote_id_not_single_quoted :
    function_arns_csv [String.mk ['a', Char.ofNat 39, 'b']]
      ≠ c10claimedCsv [String.mk ['a', Char.ofNat 39, 'b']]
    ∧ function_arns_csv [String.mk ['a', Char.ofNat 39, 'b']]
      = String.mk [Char.ofNat 34, 'a', Char.ofNat 39, 'b', Char.ofNat 34] := by decide

/-- C10 (amended): the compute_activity statement embeds the Python
`str` of the identifier list with its outer brackets removed — each
identifier rendered by Python string repr and separated by comma-space.
When no identifier contains a quote, backslash, or escaped control
character, each is wrapped in single-quote characters with no escaping
(the claimed form); an identifier containing a single quote (and no
double quote, backslash or control character) is instead wrapped in
double-quote characters, with the single quote spliced into the
statement text unescaped. -/
theorem c10_identifier_embedding_via_python_repr (l : List String) (s : String)
    (_hl : l ≠ [])
    (hplain : ∀ t ∈ l, ∀ c ∈ t.data, pyPlainChar c = true)
    (hsq : Char.ofNat 39 ∈ s.data)
    (hmix : ∀ c ∈ s.data, pyPlainChar c = true ∨ c = Char.ofNat 39) :
    LAST_RUN_QUERY_TEMPLATE (function_arns_csv l)
      = lastRunPre ++ c10claimedCsv l ++ lastRunPost
    ∧ pyReprStr s = String.singleton (Char.ofNat 34) ++ s ++ String.singleton (Char.ofNat 34) := by
  constructor
  · rw [LAST_RUN_QUERY_TEMPLATE, functionArnsCsvQuoted l hplain]
  · exact pyReprStrSingleQuoted s hsq hmix

/-- C10 witness: the amended theorem applied at the concrete list
`["fn-a"]` and the concrete single-quote-bearing identifier `a'b`. -/
theorem c10_identifier_embedding_witness :
    LAST_RUN_QUERY_TEMPLATE (function_arns_csv ["fn-a"])
      = lastRunPre ++ c10claimedCsv ["fn-a"] ++ lastRunPost
    ∧ pyReprStr (String.mk ['a', Char.ofNat 39, 'b'])
      = String.singleton (Char.ofNat 34) ++ String.mk ['a', Char.ofNat 39, 'b']
        ++ String.singleton (Char.ofNat 34) :=
  c10_identifier_embedding_via_python_repr ["fn-a"] (String.mk ['a', Char.ofNat 39, 'b'])
    (by decide) (by decide) (by decide) (by decide)
